import Mathlib

/-!
# GameX application shim: lifecycle, frame loop and frame compositing

A shallow embedding of `src/GameX/application/application.cpp`.

Every member function of `GameX::Base::Application` becomes a function that
returns the ordered list of calls it makes on its collaborators (GLFW, the
Vulkan core, the renderer, the animation manager, the domain core, and the
user hooks).  What those collaborators answer is supplied by an environment
`Env`; the function-local static of `Update` is carried in explicit state.
-/

namespace GameX.Base

/-! ## Data model -/

/-- The settings record; `width`/`height` are C `int`s with `-1` meaning unset. -/
structure ApplicationSettings where
  width : Int
  height : Int
  fullscreen : Bool
deriving DecidableEq, Repr

/-- The fields of `GLFWvidmode` read by the constructor. -/
structure GLFWvidmode where
  width : Int
  height : Int
  redBits : Int
  greenBits : Int
  blueBits : Int
  refreshRate : Int
deriving DecidableEq, Repr

/-- GLFW window hints set by the constructor. -/
inductive GLFWhint
  | CLIENT_API
  | RESIZABLE
  | RED_BITS
  | GREEN_BITS
  | BLUE_BITS
  | REFRESH_RATE
  | DECORATED
deriving DecidableEq, Repr

/-- Values given to window hints. -/
inductive GLFWhintValue
  | NO_API
  | FALSE
  | int (v : Int)
deriving DecidableEq, Repr

/-- The components owned by the application. -/
inductive Component
  | window_
  | vk_core_
  | renderer_
  | animation_manager_
  | game_core_
deriving DecidableEq, Repr

/-- Image layouts named in the source. -/
inductive VkImageLayout
  | UNDEFINED
  | TRANSFER_DST_OPTIMAL
  | TRANSFER_SRC_OPTIMAL
  | PRESENT_SRC_KHR
  | SHADER_READ_ONLY_OPTIMAL
deriving DecidableEq, Repr

/-- Pipeline stages named in the source. -/
inductive VkPipelineStage
  | TOP_OF_PIPE_BIT
  | TRANSFER_BIT
  | BOTTOM_OF_PIPE_BIT
  | FRAGMENT_SHADER_BIT
deriving DecidableEq, Repr

/-- Access masks named in the source. -/
inductive VkAccess
  | MEMORY_READ_BIT
  | TRANSFER_WRITE_BIT
  | SHADER_READ_BIT
  | TRANSFER_READ_BIT
deriving DecidableEq, Repr

/-- Blit filters. -/
inductive VkFilter
  | NEAREST
  | LINEAR
deriving DecidableEq, Repr

/-- The value of `VK_IMAGE_ASPECT_COLOR_BIT`. -/
def VK_IMAGE_ASPECT_COLOR_BIT : Nat := 1

/-- Image handles seen by `Render`/`OutputImage`: the swapchain image at an
index, and the output image of the animation manager's primary film. -/
inductive ImageHandle
  | swapchain (index : Nat)
  | film_output_image
deriving DecidableEq, Repr

/-- A `VkExtent2D`: both fields are `uint32_t`, held here as naturals. -/
structure VkExtent2D where
  width : Nat
  height : Nat
deriving DecidableEq, Repr

/-- A `VkOffset3D`: the fields are `int32_t`. -/
structure VkOffset3D where
  x : Int
  y : Int
  z : Int
deriving DecidableEq, Repr

/-- A `VkImageSubresourceLayers`. -/
structure VkImageSubresourceLayers where
  aspectMask : Nat
  mipLevel : Nat
  baseArrayLayer : Nat
  layerCount : Nat
deriving DecidableEq, Repr

/-- A `VkImageBlit`; the two-element offset arrays are split into `0` and `1`. -/
structure VkImageBlit where
  srcSubresource : VkImageSubresourceLayers
  srcOffsets0 : VkOffset3D
  srcOffsets1 : VkOffset3D
  dstSubresource : VkImageSubresourceLayers
  dstOffsets0 : VkOffset3D
  dstOffsets1 : VkOffset3D
deriving DecidableEq, Repr

/-- A `VkImageSubresourceRange`. -/
structure VkImageSubresourceRange where
  aspectMask : Nat
  baseMipLevel : Nat
  levelCount : Nat
  baseArrayLayer : Nat
  layerCount : Nat
deriving DecidableEq, Repr

/-- A `VkClearColorValue`, its four components written as the decimal literals
of the source (rounding to `float` is not modelled). -/
structure VkClearColorValue where
  r : ℚ
  g : ℚ
  b : ℚ
  a : ℚ
deriving DecidableEq, Repr

/-- Commands recorded into the frame's command buffer by the application. -/
inductive Cmd
  | TransitImageLayout (image : ImageHandle) (old_layout new_layout : VkImageLayout)
      (src_stage dst_stage : VkPipelineStage) (src_access dst_access : VkAccess)
      (aspect : Nat)
  | vkCmdClearColorImage (image : ImageHandle) (layout : VkImageLayout)
      (color : VkClearColorValue) (rangeCount : Nat) (range : VkImageSubresourceRange)
  | vkCmdBlitImage (src : ImageHandle) (srcLayout : VkImageLayout) (dst : ImageHandle)
      (dstLayout : VkImageLayout) (regionCount : Nat) (region : VkImageBlit)
      (filter : VkFilter)
deriving DecidableEq, Repr

/-- Calls made by the member functions on GLFW, the owned components and the
user hooks, in the order the source makes them. -/
inductive Call
  | glfwInit
  | glfwWindowHint (hint : GLFWhint) (value : GLFWhintValue)
  | glfwGetPrimaryMonitor
  | glfwGetVideoMode
  | glfwCreateWindow (width height : Int) (title : String)
  | glfwSetWindowPos (x y : Int)
  | make_unique (c : Component)
  | game_core_Start
  | OnInit
  | OnCleanup
  | game_core_Stop
  | reset (c : Component)
  | glfwDestroyWindow
  | glfwTerminate
  | OnUpdate
  | glfwGetTime (result : ℚ)
  | animation_manager_Update (delta_time : ℚ)
  | renderer_SyncObjects
  | BeginFrame
  | record (cmd : Cmd)
  | animation_manager_Render (result : Bool)
  | PrimaryFilm
  | EndFrame
deriving DecidableEq, Repr

/-- The statements of `Run`, each call to a member function with the calls
made inside it. -/
inductive RunCall
  | Init (body : List Call)
  | glfwWindowShouldClose (result : Bool)
  | glfwPollEvents
  | Update (body : List Call)
  | Render (body : List Call)
  | Device_WaitIdle
  | Cleanup (body : List Call)
deriving DecidableEq, Repr

/-- The calls of `Run` other than the reads of the close flag, bodies erased. -/
inductive TopCall
  | Init
  | PollEvents
  | Update
  | Render
  | WaitIdle
  | Cleanup
deriving DecidableEq, Repr

/-- What the collaborators answer.  `startup` is the value of the GLFW timer
while the constructor runs (the constructor does not read it); `clock i` is
the result of the `i`-th call of `glfwGetTime` (counting from `0`); the other
fields are indexed by the number of frames begun before the current one. -/
structure Env where
  startup : ℚ
  clock : Nat → ℚ
  frameReady : Nat → Bool
  imageIndex : Nat → Nat
  filmExtent : Nat → VkExtent2D
  swapExtent : Nat → VkExtent2D

/-- What belongs to the process, not to an application object: the
function-local `static last_time` of `Update` (`none` until its initialiser
has run, which happens once per process) and the number of `glfwGetTime`
calls made so far. -/
structure ProcessState where
  last_time : Option ℚ
  timeCalls : Nat
deriving DecidableEq, Repr

/-- The state a member function runs in: the resolved settings and the number
of frames begun so far on this application, together with the two fields of
the process state, `last_time` and `timeCalls`. -/
structure ApplicationState where
  settings_ : ApplicationSettings
  last_time : Option ℚ
  timeCalls : Nat
  frames : Nat
deriving DecidableEq, Repr

set_option linter.dupNamespace false

/-! ## Constructor -/

/-- The constructor, lines 6-63.  `proc` is the process state it runs in: the
constructor neither reads the clock nor touches the static `last_time` of
`Update`, so both fields pass through unchanged.  `primaryMode` is what
`glfwGetVideoMode(glfwGetPrimaryMonitor())` points to, `none` for a null
pointer, which the source dereferences unchecked: the result is then `none`. -/
def Application.Application (proc : ProcessState) (primaryMode : Option GLFWvidmode)
    (settings : ApplicationSettings) : Option (ApplicationState × List Call) := do
  let t0 : List Call :=
    [.glfwInit, .glfwWindowHint .CLIENT_API .NO_API, .glfwWindowHint .RESIZABLE .FALSE]
  let (settings_, t1) ←
    if settings.width = -1 ∨ settings.height = -1 then
      if settings.fullscreen then do
        let mode ← primaryMode
        pure ({ settings with width := mode.width, height := mode.height },
              t0 ++ [.glfwGetPrimaryMonitor, .glfwGetVideoMode])
      else
        pure ({ settings with width := 1280, height := 720 }, t0)
    else
      pure (settings, t0)
  let t2 ←
    if settings_.fullscreen then do
      let mode ← primaryMode
      pure (t1 ++ [.glfwGetPrimaryMonitor, .glfwGetVideoMode,
                   .glfwWindowHint .RED_BITS (.int mode.redBits),
                   .glfwWindowHint .GREEN_BITS (.int mode.greenBits),
                   .glfwWindowHint .BLUE_BITS (.int mode.blueBits),
                   .glfwWindowHint .REFRESH_RATE (.int mode.refreshRate),
                   .glfwWindowHint .DECORATED .FALSE])
    else
      pure t1
  let t3 := t2 ++ [.glfwCreateWindow settings_.width settings_.height "GameX"]
  let t4 := if settings_.fullscreen then t3 ++ [.glfwSetWindowPos 0 0] else t3
  pure ({ settings_ := settings_, last_time := proc.last_time,
          timeCalls := proc.timeCalls, frames := 0 },
        t4 ++ [.make_unique .vk_core_, .make_unique .renderer_,
               .make_unique .animation_manager_, .make_unique .game_core_])

/-- The application state right after construction with the given resolved
settings in a process where `Update` has never run and the clock has never
been read. -/
def Application.fresh (settings : ApplicationSettings) : ApplicationState :=
  { settings_ := settings, last_time := none, timeCalls := 0, frames := 0 }

/-- The size arguments of the `glfwCreateWindow` calls in a trace. -/
def windowSizes (t : List Call) : List (Int × Int) :=
  t.filterMap fun c =>
    match c with
    | .glfwCreateWindow w h _ => some (w, h)
    | _ => none

/-- The component a call brings into existence, if any. -/
def created : Call → Option Component
  | .glfwCreateWindow _ _ _ => some .window_
  | .make_unique c => some c
  | _ => none

/-- The component a call releases, if any. -/
def released : Call → Option Component
  | .reset c => some c
  | .glfwDestroyWindow => some .window_
  | _ => none

/-! ## Init and Cleanup -/

/-- `Init`, lines 68-71. -/
def Application.Init (_app : ApplicationState) : List Call :=
  [.game_core_Start, .OnInit]

/-- `Cleanup`, lines 73-82. -/
def Application.Cleanup (_app : ApplicationState) : List Call :=
  [.OnCleanup, .game_core_Stop, .reset .game_core_, .reset .animation_manager_,
   .reset .renderer_, .reset .vk_core_, .glfwDestroyWindow, .glfwTerminate]

/-! ## Update -/

/-- `Update`, lines 84-91.  The initialiser of `static auto last_time` runs
only in the call that finds it uninitialised; nothing assigns `last_time`
afterwards. -/
def Application.Update (env : Env) (app : ApplicationState) : ApplicationState × List Call :=
  let (last_time, n, t0) :=
    match app.last_time with
    | some t => (t, app.timeCalls, [Call.OnUpdate])
    | none =>
      (env.clock app.timeCalls, app.timeCalls + 1,
       [Call.OnUpdate, Call.glfwGetTime (env.clock app.timeCalls)])
  let current_time := env.clock n
  let delta_time := current_time - last_time
  ({ app with last_time := some last_time, timeCalls := n + 1 },
   t0 ++ [.glfwGetTime current_time, .animation_manager_Update delta_time,
          .renderer_SyncObjects])

/-- The deltas handed to the animation manager in a trace. -/
def deltas (t : List Call) : List ℚ :=
  t.filterMap fun c =>
    match c with
    | .animation_manager_Update d => some d
    | _ => none

/-- The clock results obtained in a trace. -/
def clockReads (t : List Call) : List ℚ :=
  t.filterMap fun c =>
    match c with
    | .glfwGetTime r => some r
    | _ => none

/-- The bodies of `n` successive calls of `Update`, one list per call. -/
def updateCalls (env : Env) : Nat → ApplicationState → List (List Call)
  | 0, _ => []
  | n + 1, app => (Application.Update env app).2 :: updateCalls env n (Application.Update env app).1

/-! ## Render and OutputImage -/

/-- Conversion of a `uint32_t` extent component to the `int32_t` of a
`VkOffset3D` field (two's complement narrowing), as performed by the
assignments of lines 151-152 and 156-157. -/
def toInt32 (n : Nat) : Int :=
  if n % 2 ^ 32 < 2 ^ 31 then ((n % 2 ^ 32 : Nat) : Int)
  else ((n % 2 ^ 32 : Nat) : Int) - 2 ^ 32

/-- The clear colour of `Render`, line 108. -/
def clear_color : VkClearColorValue := ⟨6 / 10, 7 / 10, 8 / 10, 1⟩

/-- The subresource range of `Render`, line 109. -/
def subresource_range : VkImageSubresourceRange :=
  ⟨VK_IMAGE_ASPECT_COLOR_BIT, 0, 1, 0, 1⟩

/-- The blit region built in `OutputImage`, lines 148-158, from the extent of
the output image and the extent of the swapchain. -/
def blit_region (src dst : VkExtent2D) : VkImageBlit :=
  { srcSubresource := ⟨VK_IMAGE_ASPECT_COLOR_BIT, 0, 0, 1⟩
    srcOffsets0 := ⟨0, 0, 0⟩
    srcOffsets1 := ⟨toInt32 src.width, toInt32 src.height, 1⟩
    dstSubresource := ⟨VK_IMAGE_ASPECT_COLOR_BIT, 0, 0, 1⟩
    dstOffsets0 := ⟨0, 0, 0⟩
    dstOffsets1 := ⟨toInt32 dst.width, toInt32 dst.height, 1⟩ }

/-- `OutputImage`, lines 144-190, during the frame numbered `app.frames`. -/
def Application.OutputImage (env : Env) (app : ApplicationState)
    (output_image : ImageHandle) : List Call :=
  let frame_image := ImageHandle.swapchain (env.imageIndex app.frames)
  let region := blit_region (env.filmExtent app.frames) (env.swapExtent app.frames)
  [.record (.TransitImageLayout output_image .SHADER_READ_ONLY_OPTIMAL
      .TRANSFER_SRC_OPTIMAL .FRAGMENT_SHADER_BIT .TRANSFER_BIT .SHADER_READ_BIT
      .TRANSFER_READ_BIT VK_IMAGE_ASPECT_COLOR_BIT),
   .record (.TransitImageLayout frame_image .PRESENT_SRC_KHR .TRANSFER_DST_OPTIMAL
      .BOTTOM_OF_PIPE_BIT .TRANSFER_BIT .MEMORY_READ_BIT .TRANSFER_WRITE_BIT
      VK_IMAGE_ASPECT_COLOR_BIT),
   .record (.vkCmdBlitImage output_image .TRANSFER_SRC_OPTIMAL frame_image
      .TRANSFER_DST_OPTIMAL 1 region .NEAREST),
   .record (.TransitImageLayout output_image .TRANSFER_SRC_OPTIMAL
      .SHADER_READ_ONLY_OPTIMAL .TRANSFER_BIT .FRAGMENT_SHADER_BIT .TRANSFER_READ_BIT
      .SHADER_READ_BIT VK_IMAGE_ASPECT_COLOR_BIT),
   .record (.TransitImageLayout frame_image .TRANSFER_DST_OPTIMAL .PRESENT_SRC_KHR
      .TRANSFER_BIT .BOTTOM_OF_PIPE_BIT .TRANSFER_WRITE_BIT .MEMORY_READ_BIT
      VK_IMAGE_ASPECT_COLOR_BIT)]

/-- `Render`, lines 93-129. -/
def Application.Render (env : Env) (app : ApplicationState) : ApplicationState × List Call :=
  let frame_image := ImageHandle.swapchain (env.imageIndex app.frames)
  let t0 : List Call :=
    [.BeginFrame,
     .record (.TransitImageLayout frame_image .UNDEFINED .TRANSFER_DST_OPTIMAL
        .TOP_OF_PIPE_BIT .TRANSFER_BIT .MEMORY_READ_BIT .TRANSFER_WRITE_BIT
        VK_IMAGE_ASPECT_COLOR_BIT),
     .record (.vkCmdClearColorImage frame_image .TRANSFER_DST_OPTIMAL clear_color 1
        subresource_range),
     .record (.TransitImageLayout frame_image .TRANSFER_DST_OPTIMAL .PRESENT_SRC_KHR
        .TRANSFER_BIT .BOTTOM_OF_PIPE_BIT .TRANSFER_WRITE_BIT .MEMORY_READ_BIT
        VK_IMAGE_ASPECT_COLOR_BIT),
     .animation_manager_Render (env.frameReady app.frames)]
  let t1 :=
    if env.frameReady app.frames then
      t0 ++ [.PrimaryFilm] ++ Application.OutputImage env app .film_output_image
    else t0
  ({ app with frames := app.frames + 1 }, t1 ++ [.EndFrame])

/-- The commands recorded in a trace, in order. -/
def recorded (t : List Call) : List Cmd :=
  t.filterMap fun c =>
    match c with
    | .record cmd => some cmd
    | _ => none

/-- Whether a command is a blit. -/
def Cmd.isBlit : Cmd → Bool
  | .vkCmdBlitImage .. => true
  | _ => false

/-- Whether a command names the given image (as target, source or destination). -/
def Cmd.touches (img : ImageHandle) : Cmd → Bool
  | .TransitImageLayout i .. => i == img
  | .vkCmdClearColorImage i .. => i == img
  | .vkCmdBlitImage s _ d .. => s == img || d == img

/-! ## Layout tracking -/

/-- The layouts assumed when a frame begins: a swapchain image is taken as
`UNDEFINED` (the old layout of the first transition), the film's output image
as shader-readable. -/
def entryLayouts : ImageHandle → VkImageLayout
  | .swapchain _ => .UNDEFINED
  | .film_output_image => .SHADER_READ_ONLY_OPTIMAL

/-- One step of layout tracking.  A transition must declare the tracked layout
as its old layout and leaves the image in its new layout; a clear needs its
target tracked and declared transfer-writable; a blit needs its source tracked
and declared transfer-readable and its destination tracked and declared
transfer-writable.  `none` when the command breaks its rule. -/
def trackCmd (st : ImageHandle → VkImageLayout) :
    Cmd → Option (ImageHandle → VkImageLayout)
  | .TransitImageLayout img old new _ _ _ _ _ =>
    if st img = old then some (fun i => if i = img then new else st i) else none
  | .vkCmdClearColorImage img layout _ _ _ =>
    if st img = layout ∧ layout = .TRANSFER_DST_OPTIMAL then some st else none
  | .vkCmdBlitImage src srcLayout dst dstLayout _ _ _ =>
    if st src = srcLayout ∧ srcLayout = .TRANSFER_SRC_OPTIMAL ∧
       st dst = dstLayout ∧ dstLayout = .TRANSFER_DST_OPTIMAL then some st else none

/-- Layout tracking through a list of commands. -/
def trackCmds (st : ImageHandle → VkImageLayout) :
    List Cmd → Option (ImageHandle → VkImageLayout)
  | [] => some st
  | c :: cs =>
    match trackCmd st c with
    | none => none
    | some st1 => trackCmds st1 cs

/-! ## Run -/

/-- The loop of `Run`, lines 134-138.  The list holds the successive results
of `glfwWindowShouldClose`; `none` when it ends before the flag is set. -/
def Application.RunLoop (env : Env) :
    List Bool → ApplicationState → Option (ApplicationState × List RunCall)
  | [], _ => none
  | true :: _, app => some (app, [.glfwWindowShouldClose true])
  | false :: flags, app =>
    match Application.RunLoop env flags
        (Application.Render env (Application.Update env app).1).1 with
    | none => none
    | some (app1, t) =>
      some (app1, [.glfwWindowShouldClose false, .glfwPollEvents,
                   .Update (Application.Update env app).2,
                   .Render (Application.Render env (Application.Update env app).1).2] ++ t)

/-- `Run`, lines 131-142. -/
def Application.Run (env : Env) (flags : List Bool) (app : ApplicationState) :
    Option (ApplicationState × List RunCall) :=
  match Application.RunLoop env flags app with
  | none => none
  | some (app1, t) =>
    some (app1, [.Init (Application.Init app)] ++ t ++
      [.Device_WaitIdle, .Cleanup (Application.Cleanup app1)])

/-- The call of `Run` a statement stands for; reads of the close flag are not
calls of the sequence. -/
def topCall : RunCall → Option TopCall
  | .Init _ => some .Init
  | .glfwWindowShouldClose _ => none
  | .glfwPollEvents => some .PollEvents
  | .Update _ => some .Update
  | .Render _ => some .Render
  | .Device_WaitIdle => some .WaitIdle
  | .Cleanup _ => some .Cleanup

/-! ## Sample environments -/

/-- An environment whose timer is at `0` at startup and whose readings start
at `start` and advance by one per reading, with a 640x360 film ready every
frame and a 1280x720 swapchain. -/
def steadyEnv (start : ℚ) : Env :=
  { startup := 0
    clock := fun i => start + i
    frameReady := fun _ => true
    imageIndex := fun _ => 0
    filmExtent := fun _ => ⟨640, 360⟩
    swapExtent := fun _ => ⟨1280, 720⟩ }

/-- An environment whose film is `2 ^ 31` pixels wide. -/
def hugeFilmEnv : Env :=
  { startup := 0
    clock := fun i => i
    frameReady := fun _ => true
    imageIndex := fun _ => 0
    filmExtent := fun _ => ⟨2147483648, 360⟩
    swapExtent := fun _ => ⟨1280, 720⟩ }

/-! # Theorems -/

/-! ## Size resolution (constructor) -/

/-- The constructor's result for a windowed application with an unset size. -/
theorem Application_windowed_unset (proc : ProcessState)
    (primaryMode : Option GLFWvidmode)
    (settings : ApplicationSettings) (hfs : settings.fullscreen = false)
    (hunset : settings.width = -1 ∨ settings.height = -1) :
    Application.Application proc primaryMode settings =
      some ({ settings_ := ⟨1280, 720, false⟩, last_time := proc.last_time,
              timeCalls := proc.timeCalls, frames := 0 },
        [.glfwInit, .glfwWindowHint .CLIENT_API .NO_API,
         .glfwWindowHint .RESIZABLE .FALSE, .glfwCreateWindow 1280 720 "GameX",
         .make_unique .vk_core_, .make_unique .renderer_,
         .make_unique .animation_manager_, .make_unique .game_core_]) := by
  simp [Application.Application, hfs, hunset]

/-- The constructor's result for a fullscreen application with an unset size. -/
theorem Application_fullscreen_unset (proc : ProcessState) (mode : GLFWvidmode)
    (settings : ApplicationSettings) (hfs : settings.fullscreen = true)
    (hunset : settings.width = -1 ∨ settings.height = -1) :
    Application.Application proc (some mode) settings =
      some ({ settings_ := ⟨mode.width, mode.height, true⟩, last_time := proc.last_time,
              timeCalls := proc.timeCalls, frames := 0 },
        [.glfwInit, .glfwWindowHint .CLIENT_API .NO_API,
         .glfwWindowHint .RESIZABLE .FALSE, .glfwGetPrimaryMonitor, .glfwGetVideoMode,
         .glfwGetPrimaryMonitor, .glfwGetVideoMode,
         .glfwWindowHint .RED_BITS (.int mode.redBits),
         .glfwWindowHint .GREEN_BITS (.int mode.greenBits),
         .glfwWindowHint .BLUE_BITS (.int mode.blueBits),
         .glfwWindowHint .REFRESH_RATE (.int mode.refreshRate),
         .glfwWindowHint .DECORATED .FALSE,
         .glfwCreateWindow mode.width mode.height "GameX", .glfwSetWindowPos 0 0,
         .make_unique .vk_core_, .make_unique .renderer_,
         .make_unique .animation_manager_, .make_unique .game_core_]) := by
  simp [Application.Application, hfs, hunset]

/-- C1: with `fullscreen = false` and width or height (or both) equal to the
unset sentinel `-1`, the constructor returns, and the one window it creates
is created with width 1280 and height 720, whatever the other field held and
whatever the primary monitor reports; the stored settings hold 1280 and 720. -/
theorem windowed_unset_size_is_default (proc : ProcessState)
    (primaryMode : Option GLFWvidmode)
    (settings : ApplicationSettings) (hfs : settings.fullscreen = false)
    (hunset : settings.width = -1 ∨ settings.height = -1) :
    ∃ app t, Application.Application proc primaryMode settings = some (app, t) ∧
      windowSizes t = [(1280, 720)] ∧
      app.settings_.width = 1280 ∧ app.settings_.height = 720 :=
  ⟨_, _, Application_windowed_unset proc primaryMode settings hfs hunset,
    by simp [windowSizes], rfl, rfl⟩

/-- Witness for C1: only the width is unset, the height was given as 600. -/
theorem windowed_unset_size_is_default_witness :
    ∃ app t, Application.Application ⟨none, 0⟩ none ⟨-1, 600, false⟩ = some (app, t) ∧
      windowSizes t = [(1280, 720)] ∧
      app.settings_.width = 1280 ∧ app.settings_.height = 720 :=
  windowed_unset_size_is_default ⟨none, 0⟩ none ⟨-1, 600, false⟩ rfl (Or.inl rfl)

/-- C2: with `fullscreen = true`, width or height equal to the unset sentinel
`-1`, and a primary monitor reporting the video mode `mode`, the constructor
returns, and the one window it creates is created with width `mode.width` and
height `mode.height`. -/
theorem fullscreen_unset_size_is_monitor_mode (proc : ProcessState) (mode : GLFWvidmode)
    (settings : ApplicationSettings) (hfs : settings.fullscreen = true)
    (hunset : settings.width = -1 ∨ settings.height = -1) :
    ∃ app t, Application.Application proc (some mode) settings = some (app, t) ∧
      windowSizes t = [(mode.width, mode.height)] ∧
      app.settings_.width = mode.width ∧ app.settings_.height = mode.height :=
  ⟨_, _, Application_fullscreen_unset proc mode settings hfs hunset,
    by simp [windowSizes], rfl, rfl⟩

/-- Witness for C2: only the height is unset, on a 1920x1080 monitor. -/
theorem fullscreen_unset_size_is_monitor_mode_witness :
    ∃ app t, Application.Application ⟨none, 0⟩ (some ⟨1920, 1080, 8, 8, 8, 60⟩)
        ⟨800, -1, true⟩ = some (app, t) ∧
      windowSizes t = [(1920, 1080)] ∧
      app.settings_.width = 1920 ∧ app.settings_.height = 1080 :=
  fullscreen_unset_size_is_monitor_mode ⟨none, 0⟩ ⟨1920, 1080, 8, 8, 8, 60⟩
    ⟨800, -1, true⟩ rfl (Or.inr rfl)

/-! ## Teardown -/

/-- The components the constructor creates, in creation order, whenever it
returns. -/
theorem Application_created (proc : ProcessState) (primaryMode : Option GLFWvidmode)
    (settings : ApplicationSettings) (app : ApplicationState) (t : List Call)
    (h : Application.Application proc primaryMode settings = some (app, t)) :
    t.filterMap created =
      [.window_, .vk_core_, .renderer_, .animation_manager_, .game_core_] := by
  unfold Application.Application at h
  cases primaryMode <;>
    by_cases h1 : settings.width = -1 <;> by_cases h2 : settings.height = -1 <;>
    cases hfs : settings.fullscreen <;>
    simp [h1, h2, hfs] at h <;>
    (obtain ⟨-, rfl⟩ := h; simp [created])

/-- C4: `Cleanup` makes exactly the calls OnCleanup, Core.Stop, release of the
domain Core, of the Animation Manager, of the Renderer, of the Graphics
Context, destruction of the Window, termination of GLFW, in this order; and
whenever the constructor returns, it has created Window, Graphics Context,
Renderer, Animation Manager, domain Core in this order, and the components
`Cleanup` releases are, in order, the reverse of that list. -/
theorem cleanup_reverses_construction (proc : ProcessState)
    (primaryMode : Option GLFWvidmode)
    (settings : ApplicationSettings) (app : ApplicationState) (t : List Call)
    (h : Application.Application proc primaryMode settings = some (app, t)) :
    Application.Cleanup app =
        [.OnCleanup, .game_core_Stop, .reset .game_core_, .reset .animation_manager_,
         .reset .renderer_, .reset .vk_core_, .glfwDestroyWindow, .glfwTerminate] ∧
      t.filterMap created =
        [.window_, .vk_core_, .renderer_, .animation_manager_, .game_core_] ∧
      (Application.Cleanup app).filterMap released = (t.filterMap created).reverse := by
  refine ⟨rfl, Application_created proc primaryMode settings app t h, ?_⟩
  rw [Application_created proc primaryMode settings app t h]
  simp [Application.Cleanup, released]

/-- Witness for C4: a fullscreen application on a 1920x1080 monitor. -/
theorem cleanup_reverses_construction_witness :
    ∃ app t, Application.Application ⟨none, 0⟩ (some ⟨1920, 1080, 8, 8, 8, 60⟩)
        ⟨-1, -1, true⟩ = some (app, t) ∧
      Application.Cleanup app =
        [.OnCleanup, .game_core_Stop, .reset .game_core_, .reset .animation_manager_,
         .reset .renderer_, .reset .vk_core_, .glfwDestroyWindow, .glfwTerminate] ∧
      t.filterMap created =
        [.window_, .vk_core_, .renderer_, .animation_manager_, .game_core_] ∧
      (Application.Cleanup app).filterMap released = (t.filterMap created).reverse :=
  ⟨_, _,
   Application_fullscreen_unset ⟨none, 0⟩ ⟨1920, 1080, 8, 8, 8, 60⟩ ⟨-1, -1, true⟩ rfl
     (Or.inl rfl),
   cleanup_reverses_construction ⟨none, 0⟩ (some ⟨1920, 1080, 8, 8, 8, 60⟩)
     ⟨-1, -1, true⟩ _ _
     (Application_fullscreen_unset ⟨none, 0⟩ ⟨1920, 1080, 8, 8, 8, 60⟩ ⟨-1, -1, true⟩ rfl
       (Or.inl rfl))⟩

/-! ## Update and the delta time -/

/-- `Update` in the call that runs the initialiser of `last_time`. -/
theorem Update_first (env : Env) (app : ApplicationState) (h : app.last_time = none) :
    Application.Update env app =
      ({ app with last_time := some (env.clock app.timeCalls),
                  timeCalls := app.timeCalls + 2 },
       [.OnUpdate, .glfwGetTime (env.clock app.timeCalls),
        .glfwGetTime (env.clock (app.timeCalls + 1)),
        .animation_manager_Update (env.clock (app.timeCalls + 1) - env.clock app.timeCalls),
        .renderer_SyncObjects]) := by
  simp [Application.Update, h]

/-- `Update` in every later call: `last_time` keeps its value. -/
theorem Update_later (env : Env) (app : ApplicationState) (t0 : ℚ)
    (h : app.last_time = some t0) :
    Application.Update env app =
      ({ app with timeCalls := app.timeCalls + 1 },
       [.OnUpdate, .glfwGetTime (env.clock app.timeCalls),
        .animation_manager_Update (env.clock app.timeCalls - t0),
        .renderer_SyncObjects]) := by
  cases app
  simp_all [Application.Update]

/-- The deltas of `n` successive calls once `last_time` is initialised. -/
theorem updateCalls_deltas_later (env : Env) (t0 : ℚ) (n : Nat) :
    ∀ app : ApplicationState, app.last_time = some t0 →
      (updateCalls env n app).map deltas =
        (List.range n).map fun i => [env.clock (app.timeCalls + i) - t0] := by
  induction n with
  | zero => intro app _; simp [updateCalls]
  | succ n ih =>
    intro app h
    have h1 := Update_later env app t0 h
    rw [updateCalls, h1, List.map_cons]
    dsimp only
    rw [ih { app with timeCalls := app.timeCalls + 1 } h, List.range_succ_eq_map]
    simp [deltas, Function.comp_def, Nat.add_assoc, Nat.add_comm 1]

/-- The deltas of `n` successive calls of `Update` from an application whose
`last_time` is still uninitialised: the call numbered `i + 1` passes the
reading it takes as current time minus the first reading of the first call. -/
theorem updateCalls_deltas_fresh (env : Env) (settings : ApplicationSettings) (n : Nat) :
    (updateCalls env n (Application.fresh settings)).map deltas =
      (List.range n).map fun i => [env.clock (i + 1) - env.clock 0] := by
  cases n with
  | zero => simp [updateCalls]
  | succ n =>
    have h1 := Update_first env (Application.fresh settings) rfl
    rw [updateCalls, h1, List.map_cons]
    dsimp only
    rw [updateCalls_deltas_later env (env.clock 0) n _ rfl, List.range_succ_eq_map]
    simp [deltas, Function.comp_def, Application.fresh, Nat.add_comm, Nat.add_left_comm]

/-- Every one of `n` successive calls of `Update` returns. -/
theorem updateCalls_length (env : Env) (n : Nat) :
    ∀ app : ApplicationState, (updateCalls env n app).length = n := by
  induction n with
  | zero => intro app; rfl
  | succ n ih => intro app; simp [updateCalls, ih]

/-- Whenever the constructor returns, it has read no clock and has left the
process state as it found it. -/
theorem Application_reads_no_clock (proc : ProcessState)
    (primaryMode : Option GLFWvidmode)
    (settings : ApplicationSettings) (app : ApplicationState) (t : List Call)
    (h : Application.Application proc primaryMode settings = some (app, t)) :
    clockReads t = [] ∧ app.last_time = proc.last_time ∧
      app.timeCalls = proc.timeCalls := by
  unfold Application.Application at h
  cases primaryMode <;>
    by_cases h1 : settings.width = -1 <;> by_cases h2 : settings.height = -1 <;>
    cases hfs : settings.fullscreen <;>
    simp [h1, h2, hfs] at h <;>
    (obtain ⟨rfl, rfl⟩ := h; simp [clockReads])

/-- C7, the code at the failing input: three successive calls of `Update` on a
fresh application, with `glfwGetTime` returning 0 and 1 in the first call, 2 in
the second and 3 in the third.  The deltas passed are 1, 2 and 3: the third
call passes `3 - 0`, measured from the first reading of the first call, where
the claim requires `3 - 2 = 1`, measured from the previous call. -/
theorem third_delta_is_since_first_call :
    (updateCalls (steadyEnv 0) 3 (Application.fresh ⟨1280, 720, false⟩)).map clockReads =
        [[0, 1], [2], [3]] ∧
      (updateCalls (steadyEnv 0) 3 (Application.fresh ⟨1280, 720, false⟩)).map deltas =
        [[1], [2], [3]] ∧
      (3 : ℚ) ≠ 3 - 2 := by
  refine ⟨?_, ?_, by norm_num⟩
  · simp [updateCalls, Application.Update, Application.fresh, steadyEnv, clockReads]
  · simp [updateCalls, Application.Update, Application.fresh, steadyEnv, deltas]

/-- C8, the claim refuted at a concrete input: with the timer at 0 when the
application starts and `glfwGetTime` returning 5, then 6, in the first call of
`Update`, the delta passed is 1; it is not a reading of that call minus the
startup value, which would be `5 - 0` or `6 - 0`. -/
theorem first_delta_not_since_startup :
    (steadyEnv 5).startup = 0 ∧
      clockReads (Application.Update (steadyEnv 5)
        (Application.fresh ⟨1280, 720, false⟩)).2 = [5, 6] ∧
      deltas (Application.Update (steadyEnv 5)
        (Application.fresh ⟨1280, 720, false⟩)).2 = [1] ∧
      ∀ r ∈ clockReads (Application.Update (steadyEnv 5)
          (Application.fresh ⟨1280, 720, false⟩)).2,
        deltas (Application.Update (steadyEnv 5)
          (Application.fresh ⟨1280, 720, false⟩)).2 ≠ [r - (steadyEnv 5).startup] := by
  have hreads : clockReads (Application.Update (steadyEnv 5)
      (Application.fresh ⟨1280, 720, false⟩)).2 = [5, 6] := by
    simp [Application.Update, Application.fresh, steadyEnv, clockReads]
    norm_num
  have hdeltas : deltas (Application.Update (steadyEnv 5)
      (Application.fresh ⟨1280, 720, false⟩)).2 = [1] := by
    simp [Application.Update, Application.fresh, steadyEnv, deltas]
  refine ⟨rfl, hreads, hdeltas, ?_⟩
  rw [hreads, hdeltas]
  intro r hr
  have h0 : (steadyEnv 5).startup = 0 := rfl
  rw [h0]
  rcases List.mem_pair.mp hr with rfl | rfl <;> norm_num

/-- C8, amended: the constructor reads no clock and leaves the persistent
timestamp, a static of the process, as it found it.  When that timestamp is
still uninitialised at construction (no call of `Update` has run in the
process), the first call of `Update` reads the clock twice, first to
initialise the timestamp and then for the current time, and passes the second
reading minus the first to the animation manager; the timestamp then holds
the first of the two readings. -/
theorem first_delta_is_within_first_call (env : Env) (proc : ProcessState)
    (primaryMode : Option GLFWvidmode)
    (settings : ApplicationSettings) (app : ApplicationState) (t : List Call)
    (h : Application.Application proc primaryMode settings = some (app, t))
    (hfirst : proc.last_time = none) :
    clockReads t = [] ∧ app.last_time = proc.last_time ∧
      (Application.Update env app).2 =
        [.OnUpdate, .glfwGetTime (env.clock proc.timeCalls),
         .glfwGetTime (env.clock (proc.timeCalls + 1)),
         .animation_manager_Update
           (env.clock (proc.timeCalls + 1) - env.clock proc.timeCalls),
         .renderer_SyncObjects] ∧
      (Application.Update env app).1.last_time = some (env.clock proc.timeCalls) := by
  obtain ⟨h1, h2, h3⟩ := Application_reads_no_clock proc primaryMode settings app t h
  have hnone : app.last_time = none := h2.trans hfirst
  refine ⟨h1, h2, ?_, ?_⟩
  · rw [Update_first env app hnone, h3]
  · rw [Update_first env app hnone, h3]

/-- Witness for the amended C8: a windowed application constructed in a process
that has not yet run `Update`, with readings 5 and 6 in the first call. -/
theorem first_delta_is_within_first_call_witness :
    ∃ app t, Application.Application ⟨none, 0⟩ none ⟨-1, -1, false⟩ = some (app, t) ∧
      clockReads t = [] ∧ app.last_time = none ∧
      (Application.Update (steadyEnv 5) app).2 =
        [.OnUpdate, .glfwGetTime ((steadyEnv 5).clock 0),
         .glfwGetTime ((steadyEnv 5).clock (0 + 1)),
         .animation_manager_Update
           ((steadyEnv 5).clock (0 + 1) - (steadyEnv 5).clock 0),
         .renderer_SyncObjects] ∧
      (Application.Update (steadyEnv 5) app).1.last_time = some ((steadyEnv 5).clock 0) :=
  ⟨_, _, Application_windowed_unset ⟨none, 0⟩ none ⟨-1, -1, false⟩ rfl (Or.inl rfl),
   first_delta_is_within_first_call (steadyEnv 5) ⟨none, 0⟩ none ⟨-1, -1, false⟩ _ _
     (Application_windowed_unset ⟨none, 0⟩ none ⟨-1, -1, false⟩ rfl (Or.inl rfl)) rfl⟩

/-- C9: under a non-decreasing clock (readings over the rationals), each of
`n` successive calls of `Update` on a fresh application returns and passes
exactly one delta to the animation manager, and that delta is `≥ 0`; this
holds for every `n`, hence for the first call and every later one. -/
theorem delta_nonneg_of_monotone_clock (env : Env) (hmono : Monotone env.clock)
    (settings : ApplicationSettings) (n : Nat) :
    (updateCalls env n (Application.fresh settings)).length = n ∧
      ∀ body ∈ updateCalls env n (Application.fresh settings),
        ∃ d, deltas body = [d] ∧ 0 ≤ d := by
  refine ⟨updateCalls_length env n _, ?_⟩
  intro body hbody
  have hmem : deltas body ∈ (updateCalls env n (Application.fresh settings)).map deltas :=
    List.mem_map_of_mem _ hbody
  rw [updateCalls_deltas_fresh, List.mem_map] at hmem
  obtain ⟨i, -, hi⟩ := hmem
  exact ⟨_, hi.symm, sub_nonneg.mpr (hmono (Nat.zero_le _))⟩

/-- Witness for C9: three calls under the clock 0, 1, 2, 3. -/
theorem delta_nonneg_of_monotone_clock_witness :
    Monotone (steadyEnv 0).clock ∧
      ((updateCalls (steadyEnv 0) 3 (Application.fresh ⟨1280, 720, false⟩)).length = 3 ∧
      ∀ body ∈ updateCalls (steadyEnv 0) 3 (Application.fresh ⟨1280, 720, false⟩),
        ∃ d, deltas body = [d] ∧ 0 ≤ d) :=
  ⟨fun a b h => by simpa [steadyEnv] using h,
   delta_nonneg_of_monotone_clock (steadyEnv 0)
     (fun a b h => by simpa [steadyEnv] using h) ⟨1280, 720, false⟩ 3⟩

/-! ## Render and the composite -/

/-- Narrowing keeps every value below `2 ^ 31`. -/
theorem toInt32_of_lt (n : Nat) (h : n < 2 ^ 31) : toInt32 n = n := by
  have h32 : n % 2 ^ 32 = n := Nat.mod_eq_of_lt (by omega)
  unfold toInt32
  rw [h32, if_pos h]

/-- `Render` when the animation manager reports no completed frame. -/
theorem Render_not_ready (env : Env) (app : ApplicationState)
    (h : env.frameReady app.frames = false) :
    (Application.Render env app).2 =
      [.BeginFrame,
       .record (.TransitImageLayout (.swapchain (env.imageIndex app.frames)) .UNDEFINED
          .TRANSFER_DST_OPTIMAL .TOP_OF_PIPE_BIT .TRANSFER_BIT .MEMORY_READ_BIT
          .TRANSFER_WRITE_BIT VK_IMAGE_ASPECT_COLOR_BIT),
       .record (.vkCmdClearColorImage (.swapchain (env.imageIndex app.frames))
          .TRANSFER_DST_OPTIMAL clear_color 1 subresource_range),
       .record (.TransitImageLayout (.swapchain (env.imageIndex app.frames))
          .TRANSFER_DST_OPTIMAL .PRESENT_SRC_KHR .TRANSFER_BIT .BOTTOM_OF_PIPE_BIT
          .TRANSFER_WRITE_BIT .MEMORY_READ_BIT VK_IMAGE_ASPECT_COLOR_BIT),
       .animation_manager_Render false,
       .EndFrame] := by
  simp [Application.Render, h]

/-- The commands `Render` records when the animation manager reports a
completed frame. -/
theorem Render_ready_recorded (env : Env) (app : ApplicationState)
    (h : env.frameReady app.frames = true) :
    recorded (Application.Render env app).2 =
      [.TransitImageLayout (.swapchain (env.imageIndex app.frames)) .UNDEFINED
          .TRANSFER_DST_OPTIMAL .TOP_OF_PIPE_BIT .TRANSFER_BIT .MEMORY_READ_BIT
          .TRANSFER_WRITE_BIT VK_IMAGE_ASPECT_COLOR_BIT,
       .vkCmdClearColorImage (.swapchain (env.imageIndex app.frames))
          .TRANSFER_DST_OPTIMAL clear_color 1 subresource_range,
       .TransitImageLayout (.swapchain (env.imageIndex app.frames))
          .TRANSFER_DST_OPTIMAL .PRESENT_SRC_KHR .TRANSFER_BIT .BOTTOM_OF_PIPE_BIT
          .TRANSFER_WRITE_BIT .MEMORY_READ_BIT VK_IMAGE_ASPECT_COLOR_BIT,
       .TransitImageLayout .film_output_image .SHADER_READ_ONLY_OPTIMAL
          .TRANSFER_SRC_OPTIMAL .FRAGMENT_SHADER_BIT .TRANSFER_BIT .SHADER_READ_BIT
          .TRANSFER_READ_BIT VK_IMAGE_ASPECT_COLOR_BIT,
       .TransitImageLayout (.swapchain (env.imageIndex app.frames)) .PRESENT_SRC_KHR
          .TRANSFER_DST_OPTIMAL .BOTTOM_OF_PIPE_BIT .TRANSFER_BIT .MEMORY_READ_BIT
          .TRANSFER_WRITE_BIT VK_IMAGE_ASPECT_COLOR_BIT,
       .vkCmdBlitImage .film_output_image .TRANSFER_SRC_OPTIMAL
          (.swapchain (env.imageIndex app.frames)) .TRANSFER_DST_OPTIMAL 1
          (blit_region (env.filmExtent app.frames) (env.swapExtent app.frames)) .NEAREST,
       .TransitImageLayout .film_output_image .TRANSFER_SRC_OPTIMAL
          .SHADER_READ_ONLY_OPTIMAL .TRANSFER_BIT .FRAGMENT_SHADER_BIT .TRANSFER_READ_BIT
          .SHADER_READ_BIT VK_IMAGE_ASPECT_COLOR_BIT,
       .TransitImageLayout (.swapchain (env.imageIndex app.frames)) .TRANSFER_DST_OPTIMAL
          .PRESENT_SRC_KHR .TRANSFER_BIT .BOTTOM_OF_PIPE_BIT .TRANSFER_WRITE_BIT
          .MEMORY_READ_BIT VK_IMAGE_ASPECT_COLOR_BIT] := by
  simp [Application.Render, Application.OutputImage, h, recorded]

/-- C5: in a frame where the animation manager's `Render` returns false,
`Render` makes exactly these calls: BeginFrame, the transition of the frame
image from undefined to transfer-writable, its clear to the colour
(0.6, 0.7, 0.8, 1.0), its transition to presentable, the animation manager's
`Render`, EndFrame.  No blit is recorded, no recorded command names the film's
output image, and `PrimaryFilm` is not called. -/
theorem no_composite_when_frame_not_ready (env : Env) (app : ApplicationState)
    (h : env.frameReady app.frames = false) :
    (Application.Render env app).2 =
        [.BeginFrame,
         .record (.TransitImageLayout (.swapchain (env.imageIndex app.frames)) .UNDEFINED
            .TRANSFER_DST_OPTIMAL .TOP_OF_PIPE_BIT .TRANSFER_BIT .MEMORY_READ_BIT
            .TRANSFER_WRITE_BIT VK_IMAGE_ASPECT_COLOR_BIT),
         .record (.vkCmdClearColorImage (.swapchain (env.imageIndex app.frames))
            .TRANSFER_DST_OPTIMAL ⟨6 / 10, 7 / 10, 8 / 10, 1⟩ 1
            ⟨VK_IMAGE_ASPECT_COLOR_BIT, 0, 1, 0, 1⟩),
         .record (.TransitImageLayout (.swapchain (env.imageIndex app.frames))
            .TRANSFER_DST_OPTIMAL .PRESENT_SRC_KHR .TRANSFER_BIT .BOTTOM_OF_PIPE_BIT
            .TRANSFER_WRITE_BIT .MEMORY_READ_BIT VK_IMAGE_ASPECT_COLOR_BIT),
         .animation_manager_Render false,
         .EndFrame] ∧
      (recorded (Application.Render env app).2).filter Cmd.isBlit = [] ∧
      (recorded (Application.Render env app).2).filter
          (Cmd.touches .film_output_image) = [] ∧
      Call.PrimaryFilm ∉ (Application.Render env app).2 := by
  rw [Render_not_ready env app h]
  refine ⟨rfl, ?_, ?_, ?_⟩ <;> simp [recorded, Cmd.isBlit, Cmd.touches]

/-- Witness for C5: the first frame of an environment that never has a frame
ready. -/
theorem no_composite_when_frame_not_ready_witness :
    (recorded (Application.Render { steadyEnv 0 with frameReady := fun _ => false }
        (Application.fresh ⟨1280, 720, false⟩)).2).filter Cmd.isBlit = [] ∧
      Call.PrimaryFilm ∉
        (Application.Render { steadyEnv 0 with frameReady := fun _ => false }
          (Application.fresh ⟨1280, 720, false⟩)).2 :=
  ⟨(no_composite_when_frame_not_ready { steadyEnv 0 with frameReady := fun _ => false }
      (Application.fresh ⟨1280, 720, false⟩) rfl).2.1,
   (no_composite_when_frame_not_ready { steadyEnv 0 with frameReady := fun _ => false }
      (Application.fresh ⟨1280, 720, false⟩) rfl).2.2.2⟩

/-- C6, the claim refuted at a concrete input: with a film `2 ^ 31` pixels
wide and 360 high, the far corner of the source region of the one blit is
`(-2147483648, 360, 1)`, not `(2147483648, 360, 1)`: the unsigned width is
narrowed to the signed 32-bit `x` of the offset. -/
theorem blit_source_corner_wraps_at_two_pow_31 :
    hugeFilmEnv.frameReady 0 = true ∧
      hugeFilmEnv.filmExtent 0 = ⟨2147483648, 360⟩ ∧
      (recorded (Application.Render hugeFilmEnv
          (Application.fresh ⟨1280, 720, false⟩)).2).filter Cmd.isBlit =
        [.vkCmdBlitImage .film_output_image .TRANSFER_SRC_OPTIMAL
          (.swapchain 0) .TRANSFER_DST_OPTIMAL 1
          { srcSubresource := ⟨VK_IMAGE_ASPECT_COLOR_BIT, 0, 0, 1⟩
            srcOffsets0 := ⟨0, 0, 0⟩
            srcOffsets1 := ⟨-2147483648, 360, 1⟩
            dstSubresource := ⟨VK_IMAGE_ASPECT_COLOR_BIT, 0, 0, 1⟩
            dstOffsets0 := ⟨0, 0, 0⟩
            dstOffsets1 := ⟨1280, 720, 1⟩ }
          .NEAREST] ∧
      (⟨-2147483648, 360, 1⟩ : VkOffset3D) ≠ ⟨2147483648, 360, 1⟩ := by
  refine ⟨rfl, rfl, ?_, by decide⟩
  rw [Render_ready_recorded hugeFilmEnv _ rfl]
  simp [Cmd.isBlit, blit_region, toInt32, hugeFilmEnv, Application.fresh]

/-- C6, amended: in a frame where the animation manager's `Render` returns
true, for every film extent `(sw, sh)` and swapchain extent `(dw, dh)` whose
components are all below `2 ^ 31`, the commands recorded by `Render` contain
exactly one blit; its source is the film's output image in transfer-readable
layout with region `(0,0,0)-(sw,sh,1)`, its destination the swapchain image at
the current image index in transfer-writable layout with region
`(0,0,0)-(dw,dh,1)`, both on the colour aspect, mip level 0, one layer; it has
one region and its filter is nearest. -/
theorem one_full_extent_nearest_blit_when_ready (env : Env) (app : ApplicationState)
    (sw sh dw dh : Nat)
    (h : env.frameReady app.frames = true)
    (hfilm : env.filmExtent app.frames = ⟨sw, sh⟩)
    (hswap : env.swapExtent app.frames = ⟨dw, dh⟩)
    (hsw : sw < 2 ^ 31) (hsh : sh < 2 ^ 31) (hdw : dw < 2 ^ 31) (hdh : dh < 2 ^ 31) :
    (recorded (Application.Render env app).2).filter Cmd.isBlit =
      [.vkCmdBlitImage .film_output_image .TRANSFER_SRC_OPTIMAL
        (.swapchain (env.imageIndex app.frames)) .TRANSFER_DST_OPTIMAL 1
        { srcSubresource := ⟨VK_IMAGE_ASPECT_COLOR_BIT, 0, 0, 1⟩
          srcOffsets0 := ⟨0, 0, 0⟩
          srcOffsets1 := ⟨sw, sh, 1⟩
          dstSubresource := ⟨VK_IMAGE_ASPECT_COLOR_BIT, 0, 0, 1⟩
          dstOffsets0 := ⟨0, 0, 0⟩
          dstOffsets1 := ⟨dw, dh, 1⟩ }
        .NEAREST] := by
  rw [Render_ready_recorded env app h, hfilm, hswap]
  simp [Cmd.isBlit, blit_region, toInt32_of_lt _ hsw, toInt32_of_lt _ hsh,
    toInt32_of_lt _ hdw, toInt32_of_lt _ hdh]

/-- Witness for the amended C6: a 640x360 film blitted onto a 1280x720
swapchain image. -/
theorem one_full_extent_nearest_blit_when_ready_witness :
    (recorded (Application.Render (steadyEnv 0)
        (Application.fresh ⟨1280, 720, false⟩)).2).filter Cmd.isBlit =
      [.vkCmdBlitImage .film_output_image .TRANSFER_SRC_OPTIMAL
        (.swapchain 0) .TRANSFER_DST_OPTIMAL 1
        { srcSubresource := ⟨VK_IMAGE_ASPECT_COLOR_BIT, 0, 0, 1⟩
          srcOffsets0 := ⟨0, 0, 0⟩
          srcOffsets1 := ⟨640, 360, 1⟩
          dstSubresource := ⟨VK_IMAGE_ASPECT_COLOR_BIT, 0, 0, 1⟩
          dstOffsets0 := ⟨0, 0, 0⟩
          dstOffsets1 := ⟨1280, 720, 1⟩ }
        .NEAREST] :=
  one_full_extent_nearest_blit_when_ready (steadyEnv 0)
    (Application.fresh ⟨1280, 720, false⟩) 640 360 1280 720 rfl rfl rfl
    (by norm_num) (by norm_num) (by norm_num) (by norm_num)

/-- C10: tracking layouts through the commands recorded by `Render` (and by
`OutputImage` inside it), from the frame image as undefined and the film's
output image as shader-readable, never fails: every transition declares as old
layout the layout its image was left in, the clear and the blit find their
target transfer-writable and the blit finds its source transfer-readable.  At
the end of the frame the frame image is presentable and the film's output
image is shader-readable, whether the composite ran or was skipped. -/
theorem frame_layouts_tracked (env : Env) (app : ApplicationState) :
    ∃ final, trackCmds entryLayouts (recorded (Application.Render env app).2) = some final ∧
      final (.swapchain (env.imageIndex app.frames)) = .PRESENT_SRC_KHR ∧
      final .film_output_image = .SHADER_READ_ONLY_OPTIMAL := by
  cases h : env.frameReady app.frames
  · rw [Render_not_ready env app h]
    simp [recorded, trackCmds, trackCmd, entryLayouts]
  · rw [Render_ready_recorded env app h]
    simp [trackCmds, trackCmd, entryLayouts]

/-! ## Run -/

/-- Occurrences of each call in `k` rounds of PollEvents, Update, Render. -/
theorem rounds_count (k : Nat) :
    ((List.replicate k [TopCall.PollEvents, .Update, .Render]).flatten).count .Init = 0 ∧
    ((List.replicate k [TopCall.PollEvents, .Update, .Render]).flatten).count .Update = k ∧
    ((List.replicate k [TopCall.PollEvents, .Update, .Render]).flatten).count .Render = k ∧
    ((List.replicate k [TopCall.PollEvents, .Update, .Render]).flatten).count .WaitIdle = 0 ∧
    ((List.replicate k [TopCall.PollEvents, .Update, .Render]).flatten).count .Cleanup = 0 := by
  induction k with
  | zero => simp
  | succ k ih =>
    obtain ⟨h1, h2, h3, h4, h5⟩ := ih
    simp [List.replicate_succ, List.count_cons, h1, h2, h3, h4, h5]

/-- The loop of `Run` on `k` readings `false` followed by a reading `true`
returns, having made `k` rounds of PollEvents, Update, Render. -/
theorem RunLoop_sequence (env : Env) (rest : List Bool) (k : Nat) :
    ∀ app : ApplicationState, ∃ app1 t,
      Application.RunLoop env (List.replicate k false ++ true :: rest) app = some (app1, t) ∧
      t.filterMap topCall =
        (List.replicate k [TopCall.PollEvents, .Update, .Render]).flatten := by
  induction k with
  | zero => intro app; exact ⟨app, _, rfl, rfl⟩
  | succ k ih =>
    intro app
    obtain ⟨app1, t, ht, hseq⟩ :=
      ih (Application.Render env (Application.Update env app).1).1
    refine ⟨app1, [.glfwWindowShouldClose false, .glfwPollEvents,
        .Update (Application.Update env app).2,
        .Render (Application.Render env (Application.Update env app).1).2] ++ t, ?_, ?_⟩
    · rw [List.replicate_succ, List.cons_append, Application.RunLoop, ht]
    · simp [topCall, hseq, List.replicate_succ]

/-- C3: when the close flag reads false `k` times and then true (whatever it
would read afterwards), `Run` returns, and its calls other than the reads of
the flag are, in order, Init, then `k` times (PollEvents, Update, Render), then
Device.WaitIdle, then Cleanup.  Init, WaitIdle and Cleanup each occur once,
Update and Render each occur `k` times (none for `k = 0`), and the `Init`
statement makes the calls Core.Start, OnInit. -/
theorem run_sequence (env : Env) (app : ApplicationState) (k : Nat) (rest : List Bool) :
    ∃ app1 t,
      Application.Run env (List.replicate k false ++ true :: rest) app = some (app1, t) ∧
      t.filterMap topCall =
        [.Init] ++ (List.replicate k [TopCall.PollEvents, .Update, .Render]).flatten ++
          [.WaitIdle, .Cleanup] ∧
      t.head? = some (.Init [.game_core_Start, .OnInit]) ∧
      (t.filterMap topCall).count .Init = 1 ∧
      (t.filterMap topCall).count .Update = k ∧
      (t.filterMap topCall).count .Render = k ∧
      (t.filterMap topCall).count .WaitIdle = 1 ∧
      (t.filterMap topCall).count .Cleanup = 1 := by
  obtain ⟨app1, t, ht, hseq⟩ := RunLoop_sequence env rest k app
  have hall : ([RunCall.Init (Application.Init app)] ++ t ++
      [RunCall.Device_WaitIdle, RunCall.Cleanup (Application.Cleanup app1)]).filterMap
        topCall =
      [.Init] ++ (List.replicate k [TopCall.PollEvents, .Update, .Render]).flatten ++
        [.WaitIdle, .Cleanup] := by
    simp [topCall, hseq]
  obtain ⟨c1, c2, c3, c4, c5⟩ := rounds_count k
  refine ⟨app1, [RunCall.Init (Application.Init app)] ++ t ++
      [RunCall.Device_WaitIdle, RunCall.Cleanup (Application.Cleanup app1)],
      ?_, hall, rfl, ?_, ?_, ?_, ?_, ?_⟩
  · rw [Application.Run, ht]
  all_goals rw [hall]; simp [List.count_cons, c1, c2, c3, c4, c5]

end GameX.Base
